import Mathlib

/-!
Shallow embedding of the Ripple Realms quest/progression engine
(`zones.py`, `quests.py`, `minigames.py`, `dashboard.py`, `app.py`).

Python dictionaries are modelled as association lists kept in insertion
order, a missing key or Python `None` as `Option`, and a requirement
callable that may raise as a function into `Except Unit Bool` (an
`Except.error` value standing for a raised exception).  The Streamlit
session state consulted by a minigame is passed explicitly and the new
session state is returned.
-/

/-- Ordered list of zones (`zones.py` line 11, `ZONE_ORDER`). -/
def ZONE_ORDER : List String := ["village", "forest", "temple", "tower", "ruins"]

/-- Position of a string in a list: Python `list.index`, with the
`ValueError` branch returned as `none`. -/
def list_index : List String → String → Option Nat
  | [], _ => none
  | z :: rest, s => if z = s then some 0 else (list_index rest s).map (· + 1)

/-- `zones.next_zone` (lines 20-32): the entry after `current` in
`ZONE_ORDER`, or `none` when `current` is absent or last. -/
def next_zone (current : String) : Option String :=
  match list_index ZONE_ORDER current with
  | none => none
  | some idx => ZONE_ORDER[idx + 1]?

/-- A companion record, e.g. `{"name": "Watcher Orb", "type": "mystic"}`. -/
structure Npc where
  name : String
  type : String
deriving DecidableEq

/-- The effect payload of a choice: optional `trait` and `npc` keys. -/
structure Effects where
  trait : Option String
  npc : Option Npc
deriving DecidableEq

/-- A minigame descriptor, e.g. `{"type": "unscramble", "words": [...]}`.
`quests.run_quest` reads `minigame.get("words", [])`, so a missing
`words` key is modelled as the empty list. -/
structure MinigameSpec where
  type : String
  words : List String
deriving DecidableEq

/-- One entry of the `choices` list of a quest.  Keys that are absent from a
given choice dict in `quests.py` are `none`. -/
structure Choice where
  label : String
  effects : Effects
  message : Option String
  minigame : Option MinigameSpec
  failure_effects : Option Effects
  failure_message : Option String
deriving DecidableEq

/-- Trait dictionaries (`realm["traits"]`) as association lists in
insertion order. -/
abbrev TraitMap := List (String × Bool)

/-- A quest definition.  A requirement callable may raise, which we
model as returning `Except.error`. -/
structure Quest where
  id : String
  title : String
  description : String
  image : String
  choices : List Choice
  requirements : List (TraitMap → Except Unit Bool)

/-- The mutable `realm_state` dict of a realm.  `resources` is an
open-ended mapping the engine never touches. -/
structure RealmState where
  zone : String
  npc : List Npc
  quests : List String
  resources : List (String × Nat)
deriving DecidableEq

/-- A realm record as created in `app.create_realm_form`.  A missing or
empty `realm_state` dict is modelled as `none` (both are falsy in the
`if not traits or not state` guard of `_apply_effects_to_realm`). -/
structure Realm where
  id : String
  user_id : String
  realm_type : String
  traits : TraitMap
  realm_state : Option RealmState
deriving DecidableEq

/-- `quests.py` QUESTS["village"][0]. -/
def flickering_orb : Quest :=
  { id := "flickering_orb",
    title := "The Flickering Orb",
    description := "A glowing orb hovers over your village. It pulses gently, watching you.",
    image := "orb.png",
    choices := [
      { label := "Investigate the orb",
        effects := { trait := none, npc := some { name := "Watcher Orb", type := "mystic" } },
        message := some "The Watcher Orb joins your realm and illuminates dark corners.",
        minigame := none, failure_effects := none, failure_message := none },
      { label := "Speak to it",
        effects := { trait := some "clever", npc := none },
        message := some "The orb whispers knowledge into your mind. You feel clever.",
        minigame := none, failure_effects := none, failure_message := none },
      { label := "Ignore it",
        effects := { trait := none, npc := none },
        message := some "You walk away. Nothing changes, but you might have missed something...",
        minigame := none, failure_effects := none, failure_message := none }],
    requirements := [] }

/-- `quests.py` QUESTS["village"][1]. -/
def lost_creature : Quest :=
  { id := "lost_creature",
    title := "The Lost Creature",
    description := "A small lost creature appears at the edge of the village. It looks scared and hungry.",
    image := "seed_avatar.png",
    choices := [
      { label := "Comfort the creature",
        effects := { trait := some "kind", npc := some { name := "Grateful Creature", type := "companion" } },
        message := some "The creature warms to you and pledges loyalty. You become kinder.",
        minigame := none, failure_effects := none, failure_message := none },
      { label := "Chase it away",
        effects := { trait := some "hothead", npc := none },
        message := some "You scare it off. You feel your temper growing.",
        minigame := none, failure_effects := none, failure_message := none },
      { label := "Offer it food",
        effects := { trait := none, npc := some { name := "Thankful Creature", type := "companion" } },
        message := some "Your generosity pays off; the creature becomes your friend.",
        minigame := some { type := "unscramble", words := ["herbs", "bread", "grain"] },
        failure_effects := none,
        failure_message := some "You fumble with your supplies and the creature wanders off disappointed." }],
    requirements := [] }

/-- `quests.py` QUESTS["forest"][0]. -/
def whispers_in_trees : Quest :=
  { id := "whispers_in_trees",
    title := "Whispers in the Trees",
    description := "As you wander the forest, the trees whisper secrets in an ancient tongue.",
    image := "tree_sprite.png",
    choices := [
      { label := "Follow the whispers",
        effects := { trait := some "curious", npc := some { name := "Whisper Sprite", type := "guide" } },
        message := some "A sprite appears and promises to guide you. Your curiosity grows.",
        minigame := none, failure_effects := none, failure_message := none },
      { label := "Meditate",
        effects := { trait := some "mysterious", npc := none },
        message := some "You sit beneath the trees and absorb their wisdom. You become more mysterious.",
        minigame := none, failure_effects := none, failure_message := none },
      { label := "Ignore the whispers",
        effects := { trait := none, npc := none },
        message := some "You ignore the voices. The forest remains silent around you.",
        minigame := none, failure_effects := none, failure_message := none }],
    requirements := [] }

/-- `quests.py` QUESTS["forest"][1]. -/
def hidden_path : Quest :=
  { id := "hidden_path",
    title := "The Hidden Path",
    description := "A narrow path covered in vines leads deeper into the woods. Rumours say it hides great treasure.",
    image := "forest.png",
    choices := [
      { label := "Clear the path",
        effects := { trait := some "bold", npc := none },
        message := some "You bravely hack away the vines and feel bolder for your efforts.",
        minigame := some { type := "unscramble", words := ["vine", "leaf", "root"] },
        failure_effects := none,
        failure_message := some "You struggle to clear the vines and decide to turn back, feeling drained." },
      { label := "Walk away",
        effects := { trait := none, npc := none },
        message := some "You leave the mysterious path untouched for another day.",
        minigame := none, failure_effects := none, failure_message := none }],
    requirements := [] }

/-- `quests.py` QUESTS["temple"][0]. -/
def mirror_trials : Quest :=
  { id := "mirror_trials",
    title := "Mirror Trials",
    description := "You stand before a mirror that reflects not your face but your inner self. It asks: Are you content with who you\x27ve become?",
    image := "temple.png",
    choices := [
      { label := "Yes",
        effects := { trait := some "confident", npc := none },
        message := some "You embrace your journey. Confidence flows through you.",
        minigame := none, failure_effects := none, failure_message := none },
      { label := "No",
        effects := { trait := some "humble", npc := none },
        message := some "You vow to grow and change. Humility guides you.",
        minigame := none, failure_effects := none, failure_message := none },
      { label := "Smash the mirror",
        effects := { trait := some "hothead", npc := none },
        message := some "You shatter the mirror. Shards scatter as your temper flares.",
        minigame := none, failure_effects := none, failure_message := none }],
    requirements := [] }

/-- `quests.py` QUESTS["temple"][1]. -/
def guardians_riddle : Quest :=
  { id := "guardians_riddle",
    title := "Guardian\x27s Riddle",
    description := "A stone guardian blocks your path and asks: \x27I speak without mouth and hear without ears. I have no body, but I come alive with wind. What am I?\x27",
    image := "temple.png",
    choices := [
      { label := "Answer: Echo",
        effects := { trait := some "wise", npc := none },
        message := some "The guardian nods and allows you passage. Wisdom fills you.",
        minigame := none, failure_effects := none, failure_message := none },
      { label := "Answer: Sound",
        effects := { trait := none, npc := none },
        message := some "The statue remains silent. Perhaps another answer?",
        minigame := none, failure_effects := none, failure_message := none },
      { label := "Answer: Silence",
        effects := { trait := none, npc := none },
        message := some "A whisper passes through the air. The guardian still blocks your way.",
        minigame := none, failure_effects := none, failure_message := none }],
    requirements := [] }

/-- `quests.py` QUESTS["tower"][0]. -/
def arcane_rhythm : Quest :=
  { id := "arcane_rhythm",
    title := "Arcane Rhythm",
    description := "In the tower\x27s heart, glowing runes pulse to a rhythm. You must align with their tempo.",
    image := "tower.png",
    choices := [
      { label := "Start the reflex trial",
        effects := { trait := some "agile", npc := none },
        message := some "Your quick reactions impress the tower spirits. You feel more agile.",
        minigame := some { type := "reflex", words := [] },
        failure_effects := none,
        failure_message := some "Your reactions lag behind the runes. They dim and nothing changes." }],
    requirements := [] }

/-- `quests.py` QUESTS["tower"][1]. -/
def puzzle_of_stairs : Quest :=
  { id := "puzzle_of_stairs",
    title := "Puzzle of Stairs",
    description := "An inscription on the stairs reads: \x27Only those who understand may ascend.\x27",
    image := "tower.png",
    choices := [
      { label := "Solve the puzzle",
        effects := { trait := some "clever", npc := none },
        message := some "You decipher the inscription and feel cleverer.",
        minigame := some { type := "unscramble", words := ["magic", "wizard", "tower"] },
        failure_effects := none,
        failure_message := some "You cannot solve the inscription. The stairs remain locked." }],
    requirements := [] }

/-- `quests.py` QUESTS["ruins"][0]. -/
def ancient_guardian : Quest :=
  { id := "ancient_guardian",
    title := "Ancient Guardian",
    description := "Among the ruins, a slumbering stone guardian awakens and challenges you to prove your worth.",
    image := "ruins.png",
    choices := [
      { label := "Answer its riddle",
        effects := { trait := some "legendary", npc := none },
        message := some "You solve the ancient riddle. The guardian bows and bestows a legendary aura upon you.",
        minigame := some { type := "unscramble", words := ["ruins", "ancient", "legend"] },
        failure_effects := none,
        failure_message := some "Your answer crumbles like the ruins around you. The guardian returns to sleep." }],
    requirements := [] }

/-- The QUESTS dictionary of `quests.py` (lines 36-238): zone id to the
ordered list of quest definitions. -/
def QUESTS : List (String × List Quest) :=
  [("village", [flickering_orb, lost_creature]),
   ("forest", [whispers_in_trees, hidden_path]),
   ("temple", [mirror_trials, guardians_riddle]),
   ("tower", [arcane_rhythm, puzzle_of_stairs]),
   ("ruins", [ancient_guardian])]

/-- Python `QUESTS.get(zone, [])`. -/
def quests_for (zone : String) : List Quest :=
  ((QUESTS.find? (fun p => p.1 == zone)).map Prod.snd).getD []

/-- Python dict assignment `m[k] = v` on an insertion-ordered dict:
update the existing key in place, else append a new entry. -/
def dict_set (m : TraitMap) (k : String) (v : Bool) : TraitMap :=
  match m with
  | [] => [(k, v)]
  | (k1, v1) :: rest => if k1 = k then (k1, v) :: rest else (k1, v1) :: dict_set rest k v

/-- Python `m.get(k)` on an insertion-ordered dict. -/
def dict_get (m : TraitMap) (k : String) : Option Bool :=
  match m with
  | [] => none
  | (k1, v1) :: rest => if k1 = k then some v1 else dict_get rest k

/-- The body of the `for requirement in quest.get("requirements", [])`
loop in `quests._quest_available` (lines 243-248): `ok false` returns
`False`, a raised exception (`error`) is skipped, `ok true` continues. -/
def req_loop (traits : TraitMap) : List (TraitMap → Except Unit Bool) → Bool
  | [] => true
  | r :: rest =>
    match r traits with
    | Except.ok b => if b then req_loop traits rest else false
    | Except.error _ => req_loop traits rest

/-- `quests._quest_available` (lines 241-249). -/
def _quest_available (quest : Quest) (traits : TraitMap) : Bool :=
  req_loop traits quest.requirements

/-- The `for quest in QUESTS.get(zone, [])` loop of
`quests._select_next_quest` (lines 252-259). -/
def select_loop (traits : TraitMap) (completed : List String) : List Quest → Option Quest
  | [] => none
  | q :: rest =>
    if q.id ∈ completed then select_loop traits completed rest
    else if _quest_available q traits then some q
    else select_loop traits completed rest

/-- `quests._select_next_quest` (lines 252-259). -/
def _select_next_quest (zone : String) (traits : TraitMap) (completed : List String) :
    Option Quest :=
  select_loop traits completed (quests_for zone)

/-- The `if trait_name:` branch of `_apply_effects_to_realm` (lines
268-270); an empty string is falsy in Python, so it is skipped. -/
def apply_trait (traits : TraitMap) (t : Option String) : TraitMap :=
  match t with
  | some name => if name = "" then traits else dict_set traits name true
  | none => traits

/-- The `if npc:` branch of `_apply_effects_to_realm` (lines 271-273):
`state.setdefault("npc", []).append(npc)`. -/
def apply_npc (st : RealmState) (n : Option Npc) : RealmState :=
  match n with
  | some c => { st with npc := st.npc ++ [c] }
  | none => st

/-- `quests._apply_effects_to_realm` (lines 262-274).  The guard
`if not traits or not state: return` makes the function a no-op when
the traits dict is empty or the realm_state dict is missing/empty. -/
def _apply_effects_to_realm (realm : Realm) (effects : Effects) : Realm :=
  match realm.realm_state, realm.traits with
  | none, _ => realm
  | some _, [] => realm
  | some st, t1 :: ts =>
    { realm with
        traits := apply_trait (t1 :: ts) effects.trait,
        realm_state := some (apply_npc st effects.npc) }

/-- The in-flight quest session `st.session_state["current_quest"]`
built in `quests.run_quest` (lines 350-358).  A choice with no
`failure_effects` key stores the `{}` default. -/
structure QuestSession where
  quest_id : String
  zone : String
  minigame : MinigameSpec
  success_effects : Effects
  failure_effects : Effects
  success_message : Option String
  failure_message : String
deriving DecidableEq

/-- The minigame-resolution step of `quests.run_quest` (lines 306-318):
given the resolved minigame result, the realm value that is passed to
`supabase_client.update_realm` (i.e. persisted).  On success the quest
id is appended to `state["quests"]` (via the alias `state`, so only
when the realm actually has a `realm_state`), then the appropriate
effects are applied. -/
def resolve_minigame (realm : Realm) (info : QuestSession) (result : Bool) : Realm :=
  if result then
    let realm1 :=
      match realm.realm_state with
      | some st => { realm with realm_state := some { st with quests := st.quests ++ [info.quest_id] } }
      | none => realm
    _apply_effects_to_realm realm1 info.success_effects
  else
    _apply_effects_to_realm realm info.failure_effects

/-- Python `str.lower()`, modelled at the character level. -/
def str_lower (s : String) : String :=
  ⟨s.data.map Char.toLower⟩

/-- Python `str.strip()` (no argument): drop whitespace from both
ends, modelled at the character level. -/
def str_strip (s : String) : String :=
  ⟨((s.data.dropWhile Char.isWhitespace).reverse.dropWhile Char.isWhitespace).reverse⟩

/-- The per-session Streamlit state of `minigames.unscramble_game`:
the stored chosen word and its scrambled presentation. -/
structure UnscrambleSession where
  word : Option String
  scrambled : Option String
deriving DecidableEq

/-- `minigames.unscramble_game` (lines 26-71) as a pure step function.
The environment is passed explicitly: `pick` resolves
`random.choice(words)` to `words[pick % len(words)]`, `scrambleOf`
stands for the `random.shuffle` permutation of the chosen word, and
`submission` is `some answer` when the Submit button was pressed with
the given text and `none` otherwise.  Returns the tri-state result
(`some true` success, `some false` failure, `none` pending) and the
updated per-session state. -/
def unscramble_game (words : List String) (sess : UnscrambleSession) (pick : Nat)
    (scrambleOf : String → String) (submission : Option String) :
    Option Bool × UnscrambleSession :=
  if words.isEmpty then (some false, sess)
  else
    let sess1 :=
      match sess.word with
      | none =>
        let w := words.getD (pick % words.length) ""
        { word := some w, scrambled := some (scrambleOf w) }
      | some _ => sess
    match submission with
    | some answer =>
      let target := sess1.word.getD ""
      if str_lower (str_strip answer) = str_lower target
      then (some true, { word := none, scrambled := none })
      else (some false, { word := none, scrambled := none })
    | none => (none, sess1)

/-- `zones.unlock_next_zone_for_realm` (lines 35-45): whether a new zone
was unlocked, together with the resulting realm. -/
def unlock_next_zone_for_realm (realm : Realm) : Bool × Realm :=
  match realm.realm_state with
  | none => (false, realm)
  | some st =>
    match next_zone st.zone with
    | some nz => (true, { realm with realm_state := some { st with zone := nz } })
    | none => (false, realm)

/-- `dashboard.show_dashboard` (lines 124-134): the Unlock Next Zone
button is rendered iff `current_index + 1 < len(ZONE_ORDER)`, where a
zone absent from `ZONE_ORDER` falls back to index 0. -/
def show_unlock_button (zone : String) : Bool :=
  let current_index := (list_index ZONE_ORDER zone).getD 0
  decide (current_index + 1 < ZONE_ORDER.length)

/-- `dashboard.show_dashboard` (lines 124-143): whether the player can
actually advance out of `zone` — the button is shown and clicking it
finds a next zone to move to.  Quest completion is never consulted. -/
def dashboard_advances (zone : String) : Bool :=
  show_unlock_button zone && (next_zone zone).isSome

/-- Modelled from the spec: the `canAdvance(zone, completedIds)`
contract of spec §4.7 (advancement gated on the Quest Selector
returning none and a next zone existing); stated over the embedded
selector and `next_zone` for comparison with `dashboard_advances`. -/
def spec_canAdvance (zone : String) (traits : TraitMap) (completed : List String) : Bool :=
  (_select_next_quest zone traits completed).isNone && (next_zone zone).isSome

/-- `app.create_realm_form` trait options (app.py lines 121-127). -/
def trait_options : List String :=
  ["kind", "bold", "curious", "mysterious", "clever"]

/-- The fixed starter trait vocabulary of `app.create_realm_form`
(lines 136-138): `trait_options + [...]`. -/
def starter_vocab : List String :=
  trait_options ++ ["confident", "hothead", "wise", "humble", "agile", "legendary"]

/-- `traits = {name: False for name in ...}` (app.py lines 136-138). -/
def init_traits : TraitMap :=
  starter_vocab.map (fun n => (n, false))

/-- `app.create_realm_form` trait construction (lines 136-141): all
vocabulary traits false, then each selected trait set to true. -/
def create_traits (selected : List String) : TraitMap :=
  selected.foldl (fun m t => dict_set m t true) init_traits

/-- The realm record built in `app.create_realm_form` (lines 142-154). -/
def create_realm (realm_id user_id realm_type : String) (selected : List String) : Realm :=
  { id := realm_id,
    user_id := user_id,
    realm_type := realm_type,
    traits := create_traits selected,
    realm_state := some { zone := "village", npc := [], quests := [], resources := [] } }

/-- Every trait name mentioned in an `effects` payload anywhere in the
quest catalog. -/
def catalog_trait_names : List String :=
  QUESTS.flatMap (fun p => p.2.flatMap (fun q => q.choices.flatMap (fun c => c.effects.trait.toList)))

/-- The fresh `realm_state` of a newly created realm (app.py 148-153). -/
def fresh_state : RealmState :=
  { zone := "village", npc := [], quests := [], resources := [] }

/-- A concrete newly created realm, used to instantiate theorems. -/
def sample_realm : Realm :=
  create_realm "realm-1" "user-1" "Nature" ["kind", "bold", "curious"]

/-- A malformed realm whose traits dict is empty, so the defensive
guard of `_apply_effects_to_realm` makes effect application a no-op. -/
def malformed_realm : Realm :=
  { id := "realm-0", user_id := "user-0", realm_type := "Nature",
    traits := [], realm_state := some fresh_state }

/-- A realm sitting in the last zone with its only quest completed. -/
def ruins_realm : Realm :=
  { id := "realm-2", user_id := "user-2", realm_type := "Mystic",
    traits := create_traits ["kind", "bold", "curious"],
    realm_state := some { zone := "ruins", npc := [], quests := ["ancient_guardian"], resources := [] } }

/-- The in-flight session stored by `run_quest` (lines 350-358) after
confirming the minigame-gated choice Offer it food of `lost_creature`;
the absent `failure_effects` key becomes the `{}` default. -/
def sample_session : QuestSession :=
  { quest_id := "lost_creature", zone := "village",
    minigame := { type := "unscramble", words := ["herbs", "bread", "grain"] },
    success_effects := { trait := none, npc := some { name := "Thankful Creature", type := "companion" } },
    failure_effects := { trait := none, npc := none },
    success_message := some "Your generosity pays off; the creature becomes your friend.",
    failure_message := "You fumble with your supplies and the creature wanders off disappointed." }

/-- Setting a key and reading it back yields the written value. -/
theorem dict_get_set_self (m : TraitMap) (k : String) (v : Bool) :
    dict_get (dict_set m k v) k = some v := by
  induction m with
  | nil => simp [dict_set, dict_get]
  | cons p rest ih =>
    obtain ⟨k1, v1⟩ := p
    by_cases h : k1 = k
    · simp [dict_set, dict_get, h]
    · simp [dict_set, dict_get, h, ih]

/-- Setting one key leaves every other key unchanged. -/
theorem dict_get_set_ne (m : TraitMap) (k1 k2 : String) (v : Bool) (h : k2 ≠ k1) :
    dict_get (dict_set m k1 v) k2 = dict_get m k2 := by
  induction m with
  | nil =>
    have h2 : ¬ k1 = k2 := fun he => h he.symm
    simp [dict_set, dict_get, h2]
  | cons p rest ih =>
    obtain ⟨ka, va⟩ := p
    by_cases ha : ka = k1
    · subst ha
      have hk : ¬ ka = k2 := fun he => h (he.symm)
      simp [dict_set, dict_get, hk]
    · by_cases hb : ka = k2
      · simp [dict_set, dict_get, ha, hb, h]
      · simp [dict_set, dict_get, ha, hb, ih]

/-- Writing the same key-value pair twice equals writing it once. -/
theorem dict_set_set_self (m : TraitMap) (k : String) (v : Bool) :
    dict_set (dict_set m k v) k v = dict_set m k v := by
  induction m with
  | nil => simp [dict_set]
  | cons p rest ih =>
    obtain ⟨ka, va⟩ := p
    by_cases h : ka = k
    · simp [dict_set, h]
    · simp [dict_set, h, ih]

/-- `list.index` on an absent element raises, modelled as `none`. -/
theorem list_index_eq_none (l : List String) (s : String) (h : s ∉ l) :
    list_index l s = none := by
  induction l with
  | nil => rfl
  | cons z rest ih =>
    rw [List.mem_cons, not_or] at h
    obtain ⟨h1, h2⟩ := h
    have hz : ¬ z = s := fun he => h1 he.symm
    simp [list_index, hz, ih h2]

/-- Reading from the all-false initial trait dict. -/
theorem dict_get_init (l : List String) (k : String) :
    dict_get (l.map fun n => (n, false)) k = if k ∈ l then some false else none := by
  induction l with
  | nil => simp [dict_get]
  | cons n rest ih =>
    by_cases h : n = k
    · simp [dict_get, h]
    · have h2 : ¬ k = n := fun he => h he.symm
      simp [dict_get, h, h2, ih]

/-- Reading after a left fold of true-writes. -/
theorem dict_get_foldl_set (l : List String) (m : TraitMap) (k : String) :
    dict_get (l.foldl (fun m t => dict_set m t true) m) k
      = if k ∈ l then some true else dict_get m k := by
  induction l generalizing m with
  | nil => simp
  | cons t rest ih =>
    rw [List.foldl_cons, ih]
    by_cases h : k ∈ rest
    · simp [h]
    · by_cases h2 : k = t
      · subst h2
        simp [h, dict_get_set_self]
      · simp [h, h2, dict_get_set_ne m t k true h2]

/-- The requirement loop returns true exactly when no requirement
returns `ok false`; raising (`error`) counts as satisfied. -/
theorem req_loop_true_iff (t : TraitMap) (rs : List (TraitMap → Except Unit Bool)) :
    req_loop t rs = true ↔ ∀ r ∈ rs, r t ≠ Except.ok false := by
  induction rs with
  | nil => simp [req_loop]
  | cons r rest ih =>
    simp only [req_loop]
    cases hr : r t with
    | ok b =>
      cases b
      · constructor
        · intro h
          simp at h
        · intro h
          exact absurd hr (h r (List.mem_cons_self r rest))
      · simp [hr, ih, List.forall_mem_cons]
    | error e => simp [hr, ih, List.forall_mem_cons]

/-- The selection loop is first-match search in catalog order. -/
theorem select_loop_eq_find (t : TraitMap) (c : List String) (l : List Quest) :
    select_loop t c l = l.find? fun q => decide (q.id ∉ c) && _quest_available q t := by
  induction l with
  | nil => rfl
  | cons q rest ih =>
    by_cases h : q.id ∈ c
    · simp [select_loop, h, List.find?, ih]
    · by_cases h2 : _quest_available q t
      · simp [select_loop, h, h2, List.find?]
      · simp [select_loop, h, h2, List.find?, ih]

/-- Appending an npc leaves the zone unchanged. -/
theorem apply_npc_zone (st : RealmState) (n : Option Npc) : (apply_npc st n).zone = st.zone := by
  cases n <;> rfl

/-- Appending an npc leaves the completed-quest list unchanged. -/
theorem apply_npc_quests (st : RealmState) (n : Option Npc) :
    (apply_npc st n).quests = st.quests := by
  cases n <;> rfl

/-- Appending an npc leaves the resources unchanged. -/
theorem apply_npc_resources (st : RealmState) (n : Option Npc) :
    (apply_npc st n).resources = st.resources := by
  cases n <;> rfl

/-- The trait branch never empties a nonempty trait dict. -/
theorem apply_trait_ne_nil (a : String × Bool) (ts : TraitMap) (t : Option String) :
    apply_trait (a :: ts) t ≠ [] := by
  obtain ⟨k1, v1⟩ := a
  cases t with
  | none => simp [apply_trait]
  | some name =>
    by_cases h : name = ""
    · simp [apply_trait, h]
    · simp only [apply_trait, h, if_false]
      unfold dict_set
      split <;> simp

/-- Unfolded form of `_apply_effects_to_realm` when the guard passes. -/
theorem apply_effects_eq (realm : Realm) (e : Effects) (st : RealmState)
    (hst : realm.realm_state = some st) (htr : realm.traits ≠ []) :
    _apply_effects_to_realm realm e
      = { realm with
            traits := apply_trait realm.traits e.trait,
            realm_state := some (apply_npc st e.npc) } := by
  cases htr2 : realm.traits with
  | nil => exact absurd htr2 htr
  | cons a ts => simp [_apply_effects_to_realm, hst, htr2]

/-- Effect application never changes the completed-quest list. -/
theorem apply_effects_quests (realm : Realm) (e : Effects) :
    (_apply_effects_to_realm realm e).realm_state.map RealmState.quests
      = realm.realm_state.map RealmState.quests := by
  cases hst : realm.realm_state with
  | none => simp [_apply_effects_to_realm, hst]
  | some st =>
    cases htr : realm.traits with
    | nil => simp [_apply_effects_to_realm, hst, htr]
    | cons a ts => simp [_apply_effects_to_realm, hst, htr, apply_npc_quests]

/-- Effect application never changes the zone. -/
theorem apply_effects_zone (realm : Realm) (e : Effects) :
    (_apply_effects_to_realm realm e).realm_state.map RealmState.zone
      = realm.realm_state.map RealmState.zone := by
  cases hst : realm.realm_state with
  | none => simp [_apply_effects_to_realm, hst]
  | some st =>
    cases htr : realm.traits with
    | nil => simp [_apply_effects_to_realm, hst, htr]
    | cons a ts => simp [_apply_effects_to_realm, hst, htr, apply_npc_zone]

/-- Effect application never changes the resources. -/
theorem apply_effects_resources (realm : Realm) (e : Effects) :
    (_apply_effects_to_realm realm e).realm_state.map RealmState.resources
      = realm.realm_state.map RealmState.resources := by
  cases hst : realm.realm_state with
  | none => simp [_apply_effects_to_realm, hst]
  | some st =>
    cases htr : realm.traits with
    | nil => simp [_apply_effects_to_realm, hst, htr]
    | cons a ts => simp [_apply_effects_to_realm, hst, htr, apply_npc_resources]

/-- Effect application never changes the realm id. -/
theorem apply_effects_id (realm : Realm) (e : Effects) :
    (_apply_effects_to_realm realm e).id = realm.id := by
  cases hst : realm.realm_state with
  | none => simp [_apply_effects_to_realm, hst]
  | some st =>
    cases htr : realm.traits with
    | nil => simp [_apply_effects_to_realm, hst, htr]
    | cons a ts => simp [_apply_effects_to_realm, hst, htr]

/-- Effect application never changes the owning user. -/
theorem apply_effects_user_id (realm : Realm) (e : Effects) :
    (_apply_effects_to_realm realm e).user_id = realm.user_id := by
  cases hst : realm.realm_state with
  | none => simp [_apply_effects_to_realm, hst]
  | some st =>
    cases htr : realm.traits with
    | nil => simp [_apply_effects_to_realm, hst, htr]
    | cons a ts => simp [_apply_effects_to_realm, hst, htr]

/-- Effect application never changes the realm type. -/
theorem apply_effects_realm_type (realm : Realm) (e : Effects) :
    (_apply_effects_to_realm realm e).realm_type = realm.realm_type := by
  cases hst : realm.realm_state with
  | none => simp [_apply_effects_to_realm, hst]
  | some st =>
    cases htr : realm.traits with
    | nil => simp [_apply_effects_to_realm, hst, htr]
    | cons a ts => simp [_apply_effects_to_realm, hst, htr]

/-- Effect application leaves every trait key other than the granted
one unchanged. -/
theorem apply_effects_traits_ne (realm : Realm) (e : Effects) (k : String)
    (hk : e.trait ≠ some k) :
    dict_get (_apply_effects_to_realm realm e).traits k = dict_get realm.traits k := by
  cases hst : realm.realm_state with
  | none => simp [_apply_effects_to_realm, hst]
  | some st =>
    cases htr : realm.traits with
    | nil => simp [_apply_effects_to_realm, hst, htr]
    | cons a ts =>
      rw [apply_effects_eq realm e st hst (by simp [htr])]
      cases het : e.trait with
      | none => simp [apply_trait, htr]
      | some name =>
        have hne : k ≠ name := fun hkn => hk (by rw [het, hkn])
        by_cases hemp : name = ""
        · simp [apply_trait, hemp, htr]
        · simp [apply_trait, hemp, htr, dict_get_set_ne (a :: ts) name k true hne]

/-- C1: zone advancement in the dashboard is NOT gated on zone
completion.  With the starting zone and no quest completed, the Quest
Selector still returns a quest, so the claimed `canAdvance` contract
(modelled in `spec_canAdvance`) says advancement is impossible; yet the
code (`dashboard_advances`, from dashboard.py 124-143) lets the player
advance.  The last-zone half of the claim does hold: from "ruins" the
button is not rendered, `spec_canAdvance` is false, and
`unlock_next_zone_for_realm` is a silent no-op. -/
theorem unlock_gate_ignores_quest_completion :
    dashboard_advances "village" = true
    ∧ _select_next_quest "village" [] [] = some flickering_orb
    ∧ spec_canAdvance "village" [] [] = false
    ∧ dashboard_advances "ruins" = false
    ∧ spec_canAdvance "ruins" [] ["ancient_guardian"] = false
    ∧ unlock_next_zone_for_realm ruins_realm = (false, ruins_realm) :=
  ⟨by decide, rfl, by decide, by decide, by decide, rfl⟩

/-- C2: `_select_next_quest` is first-match search over the catalog
order: it returns the first quest of the zone whose id is not in the
completed list and whose requirements all hold (in the fail-open
sense of `_quest_available`), `none` exactly when no quest qualifies,
and a returned quest is never already completed. -/
theorem select_next_quest_first_match (zone : String) (traits : TraitMap)
    (completed : List String) :
    _select_next_quest zone traits completed
      = (quests_for zone).find? (fun q => decide (q.id ∉ completed) && _quest_available q traits)
    ∧ (_select_next_quest zone traits completed = none
        ↔ ∀ q ∈ quests_for zone, q.id ∈ completed ∨ _quest_available q traits = false)
    ∧ ∀ q, _select_next_quest zone traits completed = some q →
        q.id ∉ completed ∧ _quest_available q traits = true ∧ q ∈ quests_for zone := by
  have he := select_loop_eq_find traits completed (quests_for zone)
  refine ⟨he, ?_, ?_⟩
  · rw [_select_next_quest, he, List.find?_eq_none]
    constructor
    · intro h q hq
      by_cases hc : q.id ∈ completed
      · exact Or.inl hc
      · right
        by_cases ha : _quest_available q traits
        · exact absurd (by simp [hc, ha]) (h q hq)
        · simpa using ha
    · intro h q hq hb
      rcases h q hq with hc | ha
      · simp [hc] at hb
      · simp [ha] at hb
  · intro q hq
    rw [_select_next_quest, he] at hq
    have h1 := List.find?_some hq
    have h2 := List.mem_of_find?_eq_some hq
    rw [Bool.and_eq_true, decide_eq_true_eq] at h1
    exact ⟨h1.1, h1.2, h2⟩

/-- C2 witness: with `flickering_orb` completed, the selector picks
`lost_creature`, which is not completed, available, and in the zone
catalog. -/
theorem select_next_quest_first_match_witness :
    lost_creature.id ∉ ["flickering_orb"]
    ∧ _quest_available lost_creature [] = true
    ∧ lost_creature ∈ quests_for "village" :=
  (select_next_quest_first_match "village" [] ["flickering_orb"]).2.2 lost_creature rfl

/-- C3: `_quest_available` is fail-open.  A quest is available exactly
when no requirement returns `ok false`: a requirement that raises
(modelled as `Except.error`) never makes the quest unavailable. -/
theorem quest_available_fail_open (q : Quest) (traits : TraitMap) :
    _quest_available q traits = true
      ↔ ∀ r ∈ q.requirements, r traits ≠ Except.ok false :=
  req_loop_true_iff traits q.requirements

/-- C8: `next_zone` returns the entry immediately following its input
in `ZONE_ORDER` (witnessed by consecutive positions), is strictly
monotone on positions, and returns `none` exactly when the input is
absent from the order or is the last entry "ruins". -/
theorem next_zone_successor (s : String) :
    (next_zone s = none ↔ s ∉ ZONE_ORDER ∨ s = "ruins")
    ∧ ∀ t, next_zone s = some t →
        (∃ i, ZONE_ORDER[i]? = some s ∧ ZONE_ORDER[i + 1]? = some t)
        ∧ ∃ i j, list_index ZONE_ORDER s = some i ∧ list_index ZONE_ORDER t = some j ∧ i < j := by
  by_cases hs : s ∈ ZONE_ORDER
  · simp only [ZONE_ORDER, List.mem_cons, List.not_mem_nil, or_false] at hs
    rcases hs with h | h | h | h | h <;> subst h
    · refine ⟨by decide, ?_⟩
      intro t ht
      rw [show next_zone "village" = some "forest" from rfl] at ht
      injection ht with ht2
      subst ht2
      exact ⟨⟨0, by decide, by decide⟩, 0, 1, by decide, by decide, by decide⟩
    · refine ⟨by decide, ?_⟩
      intro t ht
      rw [show next_zone "forest" = some "temple" from rfl] at ht
      injection ht with ht2
      subst ht2
      exact ⟨⟨1, by decide, by decide⟩, 1, 2, by decide, by decide, by decide⟩
    · refine ⟨by decide, ?_⟩
      intro t ht
      rw [show next_zone "temple" = some "tower" from rfl] at ht
      injection ht with ht2
      subst ht2
      exact ⟨⟨2, by decide, by decide⟩, 2, 3, by decide, by decide, by decide⟩
    · refine ⟨by decide, ?_⟩
      intro t ht
      rw [show next_zone "tower" = some "ruins" from rfl] at ht
      injection ht with ht2
      subst ht2
      exact ⟨⟨3, by decide, by decide⟩, 3, 4, by decide, by decide, by decide⟩
    · refine ⟨by decide, ?_⟩
      intro t ht
      rw [show next_zone "ruins" = none from rfl] at ht
      simp at ht
  · have hidx : list_index ZONE_ORDER s = none := list_index_eq_none _ _ hs
    have hnone : next_zone s = none := by
      unfold next_zone
      rw [hidx]
    refine ⟨by simp [hnone, hs], ?_⟩
    intro t ht
    rw [hnone] at ht
    simp at ht

/-- C8 witness: instantiated at the first zone. -/
theorem next_zone_successor_witness :
    (∃ i, ZONE_ORDER[i]? = some "village" ∧ ZONE_ORDER[i + 1]? = some "forest")
    ∧ ∃ i j, list_index ZONE_ORDER "village" = some i
        ∧ list_index ZONE_ORDER "forest" = some j ∧ i < j :=
  (next_zone_successor "village").2 "forest" rfl

/-- C9: creating a realm with three selected starting traits yields a
traits dict that has every trait name used anywhere in the quest
catalog as a key, with a key true exactly when it was selected. -/
theorem create_traits_round_trip (selected : List String)
    (_hlen : selected.length = 3) (_hsub : ∀ t ∈ selected, t ∈ trait_options)
    (_hnd : selected.Nodup) :
    (∀ n ∈ catalog_trait_names, (dict_get (create_traits selected) n).isSome = true)
    ∧ ∀ n b, dict_get (create_traits selected) n = some b → (b = true ↔ n ∈ selected) := by
  have hkey : ∀ n, dict_get (create_traits selected) n
      = if n ∈ selected then some true
        else if n ∈ starter_vocab then some false else none := by
    intro n
    rw [create_traits, dict_get_foldl_set]
    by_cases h : n ∈ selected
    · simp [h]
    · simp only [h, if_false]
      rw [init_traits, dict_get_init]
  have hvocab : ∀ n ∈ catalog_trait_names, n ∈ starter_vocab := by decide
  constructor
  · intro n hn
    rw [hkey]
    by_cases h : n ∈ selected
    · simp [h]
    · simp [h, hvocab n hn]
  · intro n b hb
    rw [hkey] at hb
    by_cases h : n ∈ selected
    · simp only [h, if_true] at hb
      injection hb with hb2
      simp [h, hb2]
    · simp only [h, if_false] at hb
      by_cases h2 : n ∈ starter_vocab
      · simp only [h2, if_true] at hb
        injection hb with hb2
        simp [h, hb2]
      · simp [h2] at hb

/-- C9 witness: in a realm created with kind, bold and curious
selected, the catalog trait legendary is present and false, and
false is not a selected value. -/
theorem create_traits_round_trip_witness :
    dict_get (create_traits ["kind", "bold", "curious"]) "legendary" = some false
    ∧ (false = true ↔ "legendary" ∈ (["kind", "bold", "curious"] : List String)) :=
  ⟨by decide,
    (create_traits_round_trip ["kind", "bold", "curious"] (by decide) (by decide)
      (by decide)).2 "legendary" false (by decide)⟩

/-- C10: frame property of `_apply_effects_to_realm` — it can change at
most the granted trait key and the npc list: the realm id, user id,
realm type, every other trait key, and the zone, completed-quest list
and resources of the realm state are unchanged. -/
theorem apply_effects_frame (realm : Realm) (e : Effects) :
    (_apply_effects_to_realm realm e).id = realm.id
    ∧ (_apply_effects_to_realm realm e).user_id = realm.user_id
    ∧ (_apply_effects_to_realm realm e).realm_type = realm.realm_type
    ∧ (∀ k, e.trait ≠ some k →
        dict_get (_apply_effects_to_realm realm e).traits k = dict_get realm.traits k)
    ∧ (_apply_effects_to_realm realm e).realm_state.map RealmState.zone
        = realm.realm_state.map RealmState.zone
    ∧ (_apply_effects_to_realm realm e).realm_state.map RealmState.quests
        = realm.realm_state.map RealmState.quests
    ∧ (_apply_effects_to_realm realm e).realm_state.map RealmState.resources
        = realm.realm_state.map RealmState.resources :=
  ⟨apply_effects_id realm e, apply_effects_user_id realm e, apply_effects_realm_type realm e,
    fun k hk => apply_effects_traits_ne realm e k hk,
    apply_effects_zone realm e, apply_effects_quests realm e, apply_effects_resources realm e⟩

/-- C10 witness: granting kind plus a companion to a freshly created
realm leaves the key bold unchanged. -/
theorem apply_effects_frame_witness :
    ({ trait := some "kind", npc := some { name := "Watcher Orb", type := "mystic" } } : Effects).trait
        ≠ some "bold"
    ∧ dict_get (_apply_effects_to_realm sample_realm
          { trait := some "kind", npc := some { name := "Watcher Orb", type := "mystic" } }).traits "bold"
        = dict_get sample_realm.traits "bold" :=
  ⟨by decide,
    (apply_effects_frame sample_realm
        { trait := some "kind", npc := some { name := "Watcher Orb", type := "mystic" } }).2.2.2.1
      "bold" (by decide)⟩

/-- C4: when an in-flight minigame resolves, the realm value committed
by `run_quest` (lines 306-318) appends the quest id to the completed
list exactly on success: on success the persisted quests list is the
old list plus the quest id and the success effects are applied to the
appended realm; on failure the quests list is unchanged and only the
failure effects are applied. -/
theorem resolve_minigame_completion (realm : Realm) (st : RealmState) (info : QuestSession)
    (h : realm.realm_state = some st) :
    (resolve_minigame realm info true).realm_state.map RealmState.quests
        = some (st.quests ++ [info.quest_id])
    ∧ (resolve_minigame realm info false).realm_state.map RealmState.quests = some st.quests
    ∧ resolve_minigame realm info true
        = _apply_effects_to_realm
            { realm with realm_state := some { st with quests := st.quests ++ [info.quest_id] } }
            info.success_effects
    ∧ resolve_minigame realm info false = _apply_effects_to_realm realm info.failure_effects := by
  have h3 : resolve_minigame realm info true
      = _apply_effects_to_realm
          { realm with realm_state := some { st with quests := st.quests ++ [info.quest_id] } }
          info.success_effects := by
    simp [resolve_minigame, h]
  have h4 : resolve_minigame realm info false
      = _apply_effects_to_realm realm info.failure_effects := by
    simp [resolve_minigame]
  refine ⟨?_, ?_, h3, h4⟩
  · rw [h3, apply_effects_quests]
    simp
  · rw [h4, apply_effects_quests, h]
    rfl

/-- C4 witness: resolving the stored `lost_creature` session on a
freshly created realm. -/
theorem resolve_minigame_completion_witness :
    sample_realm.realm_state = some fresh_state
    ∧ (resolve_minigame sample_realm sample_session true).realm_state.map RealmState.quests
        = some (fresh_state.quests ++ [sample_session.quest_id])
    ∧ (resolve_minigame sample_realm sample_session false).realm_state.map RealmState.quests
        = some fresh_state.quests :=
  ⟨rfl, (resolve_minigame_completion sample_realm fresh_state sample_session rfl).1,
    (resolve_minigame_completion sample_realm fresh_state sample_session rfl).2.1⟩

/-- C5: the unscramble minigame returns Failure on an empty word list;
with a nonempty word list it returns Pending while nothing has been
submitted, and once a word is chosen for the session a submission
resolves to Success exactly when it equals the chosen word after
stripping and lowercasing and to Failure otherwise, clearing the
stored word and scrambled presentation on either resolution. -/
theorem unscramble_game_contract (words : List String) (sess : UnscrambleSession)
    (pick : Nat) (scrambleOf : String → String) (submission : Option String) (w : String) :
    (words = [] → (unscramble_game words sess pick scrambleOf submission).1 = some false)
    ∧ (words ≠ [] → submission = none →
        (unscramble_game words sess pick scrambleOf submission).1 = none)
    ∧ (words ≠ [] → sess.word = some w →
        (∀ a, submission = some a →
          unscramble_game words sess pick scrambleOf submission
            = (some (decide (str_lower (str_strip a) = str_lower w)), ⟨none, none⟩))
        ∧ (submission = none →
            unscramble_game words sess pick scrambleOf submission = (none, sess))) := by
  refine ⟨?_, ?_, ?_⟩
  · intro hw
    subst hw
    rfl
  · intro hw hsub
    obtain ⟨x, xs, hxs⟩ := List.exists_cons_of_ne_nil hw
    subst hxs hsub
    cases hsw : sess.word <;> simp [unscramble_game, hsw]
  · intro hw hsw
    obtain ⟨x, xs, hxs⟩ := List.exists_cons_of_ne_nil hw
    subst hxs
    constructor
    · intro a ha
      subst ha
      by_cases hc : str_lower (str_strip a) = str_lower w
      · simp [unscramble_game, hsw, hc]
      · simp [unscramble_game, hsw, hc]
    · intro hsub
      subst hsub
      simp [unscramble_game, hsw]

/-- C5 witness: the scenario word list with chosen word bread: the
answer BREAD with extra whitespace succeeds, toast fails, and no
submission is pending, with the session cleared exactly on the two
resolutions. -/
theorem unscramble_game_contract_witness :
    (["herbs", "bread", "grain"] : List String) ≠ []
    ∧ unscramble_game ["herbs", "bread", "grain"] ⟨some "bread", some "debar"⟩ 0 id (some " BREAD ")
        = (some true, ⟨none, none⟩)
    ∧ unscramble_game ["herbs", "bread", "grain"] ⟨some "bread", some "debar"⟩ 0 id (some "toast")
        = (some false, ⟨none, none⟩)
    ∧ unscramble_game ["herbs", "bread", "grain"] ⟨some "bread", some "debar"⟩ 0 id none
        = (none, ⟨some "bread", some "debar"⟩) := by
  refine ⟨by decide, ?_, ?_, ?_⟩
  · have h := ((unscramble_game_contract ["herbs", "bread", "grain"]
      ⟨some "bread", some "debar"⟩ 0 id (some " BREAD ") "bread").2.2
        (by decide) rfl).1 " BREAD " rfl
    rw [h]
    decide
  · have h := ((unscramble_game_contract ["herbs", "bread", "grain"]
      ⟨some "bread", some "debar"⟩ 0 id (some "toast") "bread").2.2
        (by decide) rfl).1 "toast" rfl
    rw [h]
    decide
  · exact ((unscramble_game_contract ["herbs", "bread", "grain"]
      ⟨some "bread", some "debar"⟩ 0 id none "bread").2.2 (by decide) rfl).2 rfl

/-- C6 counterexample: on a malformed realm with an empty traits dict,
applying a kind-granting effect twice does NOT leave traits[kind] true
(the defensive guard makes both applications no-ops), refuting the
claim read over every realm. -/
theorem trait_effect_malformed_realm_cex :
    dict_get (_apply_effects_to_realm
        (_apply_effects_to_realm malformed_realm { trait := some "kind", npc := none })
        { trait := some "kind", npc := none }).traits "kind" ≠ some true := by decide

/-- C6 (amended): applying a trait-granting effect twice always leaves
the realm exactly as one application does; and whenever the malformed
realm guard passes (nonempty traits, realm_state present) and the trait
name is nonempty, traits[name] is true after application. -/
theorem trait_effect_idempotent (realm : Realm) (name : String) :
    _apply_effects_to_realm (_apply_effects_to_realm realm { trait := some name, npc := none })
        { trait := some name, npc := none }
      = _apply_effects_to_realm realm { trait := some name, npc := none }
    ∧ (realm.traits ≠ [] → realm.realm_state ≠ none → name ≠ "" →
        dict_get (_apply_effects_to_realm realm { trait := some name, npc := none }).traits name
          = some true) := by
  constructor
  · cases hst : realm.realm_state with
    | none =>
      have h1 : _apply_effects_to_realm realm { trait := some name, npc := none } = realm := by
        cases htr : realm.traits <;> simp [_apply_effects_to_realm, hst, htr]
      rw [h1, h1]
    | some st =>
      cases htr : realm.traits with
      | nil =>
        have h1 : _apply_effects_to_realm realm { trait := some name, npc := none } = realm := by
          simp [_apply_effects_to_realm, hst, htr]
        rw [h1, h1]
      | cons a ts =>
        have htrne : realm.traits ≠ [] := by simp [htr]
        have h1 := apply_effects_eq realm { trait := some name, npc := none } st hst htrne
        have hr1state :
            (_apply_effects_to_realm realm { trait := some name, npc := none }).realm_state
              = some st := by
          rw [h1]
          rfl
        have hr1traits :
            (_apply_effects_to_realm realm { trait := some name, npc := none }).traits ≠ [] := by
          rw [h1]
          show apply_trait realm.traits (some name) ≠ []
          rw [htr]
          exact apply_trait_ne_nil a ts (some name)
        have h2 := apply_effects_eq _ { trait := some name, npc := none } st hr1state hr1traits
        rw [h2, h1]
        by_cases hemp : name = ""
        · simp [apply_trait, hemp, apply_npc]
        · simp [apply_trait, hemp, apply_npc, dict_set_set_self]
  · intro htr hstne hname
    obtain ⟨st, hst⟩ := Option.ne_none_iff_exists'.mp hstne
    rw [apply_effects_eq realm _ st hst htr]
    simp [apply_trait, hname, dict_get_set_self]

/-- C6 witness: granting wise to a freshly created well-formed realm
leaves traits[wise] true. -/
theorem trait_effect_idempotent_witness :
    sample_realm.traits ≠ [] ∧ sample_realm.realm_state ≠ none
    ∧ "wise" ≠ ""
    ∧ dict_get (_apply_effects_to_realm sample_realm
          { trait := some "wise", npc := none }).traits "wise" = some true :=
  ⟨by decide, by decide, by decide,
    (trait_effect_idempotent sample_realm "wise").2 (by decide) (by decide) (by decide)⟩

/-- C7: applying a companion-granting effect to a well-formed realm
appends the companion once per application, with no deduplication: one
application yields the old list plus the companion, a second yields it
twice. -/
theorem npc_effect_appends_twice (realm : Realm) (st : RealmState) (c : Npc)
    (htr : realm.traits ≠ []) (hst : realm.realm_state = some st) :
    (_apply_effects_to_realm realm { trait := none, npc := some c }).realm_state.map RealmState.npc
        = some (st.npc ++ [c])
    ∧ (_apply_effects_to_realm
          (_apply_effects_to_realm realm { trait := none, npc := some c })
          { trait := none, npc := some c }).realm_state.map RealmState.npc
        = some (st.npc ++ [c] ++ [c]) := by
  have h1 := apply_effects_eq realm { trait := none, npc := some c } st hst htr
  have hr1tr : (_apply_effects_to_realm realm { trait := none, npc := some c }).traits ≠ [] := by
    rw [h1]
    exact htr
  have hr1st : (_apply_effects_to_realm realm { trait := none, npc := some c }).realm_state
      = some { st with npc := st.npc ++ [c] } := by
    rw [h1]
    rfl
  have h2 := apply_effects_eq _ { trait := none, npc := some c } _ hr1st hr1tr
  refine ⟨by rw [hr1st]; rfl, ?_⟩
  rw [h2]
  simp [apply_npc]

/-- C7 witness: appending the Watcher Orb companion to a freshly
created realm. -/
theorem npc_effect_appends_twice_witness :
    sample_realm.traits ≠ []
    ∧ sample_realm.realm_state = some fresh_state
    ∧ (_apply_effects_to_realm sample_realm
          { trait := none, npc := some { name := "Watcher Orb", type := "mystic" } }).realm_state.map
            RealmState.npc
        = some (fresh_state.npc ++ [{ name := "Watcher Orb", type := "mystic" }]) :=
  ⟨by decide, rfl,
    (npc_effect_appends_twice sample_realm fresh_state { name := "Watcher Orb", type := "mystic" }
      (by decide) rfl).1⟩
